import Mathlib

/-!
Shallow embedding of the dental-clinic back-office engine of `src/app.py`.

Monetary amounts (SQL `Float` columns and Python floats) are modelled as
exact rationals; nullable columns as `Option`; `datetime` values as a pair
of a proleptic-Gregorian ordinal day (as in Python `date.toordinal`) and
the microsecond within the day.  Python `round(x, 2)` is modelled by its
documented round-half-to-even behaviour; every concrete input used in a
theorem below is a dyadic rational on which IEEE-754 double arithmetic is
exact, so the rational model and the floating-point program agree there.
The database session is modelled as an explicit `DB` state threaded
through the operations, and `datetime.now()` as an explicit parameter.
-/

set_option maxRecDepth 4000

/-- Timestamp: ordinal day number plus microseconds since midnight
(Python `datetime` has microsecond resolution). -/
structure DateTime where
  ord : Nat
  usec : Nat
deriving DecidableEq

/-- Comparison of timestamps, lexicographic on (day, microsecond). -/
def dtLe (a b : DateTime) : Bool :=
  a.ord < b.ord || (a.ord == b.ord && a.usec ≤ b.usec)

/-- Strict comparison of timestamps. -/
def dtLt (a b : DateTime) : Bool :=
  a.ord < b.ord || (a.ord == b.ord && a.usec < b.usec)

/-- One day is 86400000000 microseconds; `timedelta(seconds=1)` subtraction
with borrow from the previous day (as in `datetime` arithmetic). -/
def dtSubOneSecond (t : DateTime) : DateTime :=
  if 1000000 ≤ t.usec then ⟨t.ord, t.usec - 1000000⟩
  else ⟨t.ord - 1, t.usec + 86400000000 - 1000000⟩

/-- Gregorian leap-year rule, as in Python `calendar.isleap`. -/
def isLeap (y : Nat) : Bool :=
  y % 4 == 0 && (y % 100 != 0 || y % 400 == 0)

/-- Length of month `m` of year `y`. -/
def daysInMonth (y m : Nat) : Nat :=
  if m == 2 then (if isLeap y then 29 else 28)
  else if m == 4 || m == 6 || m == 9 || m == 11 then 30
  else 31

/-- Days in year `y` strictly before month `m`. -/
def daysBeforeMonth (y : Nat) : Nat → Nat
  | 0 => 0
  | 1 => 0
  | m + 1 => daysBeforeMonth y m + daysInMonth y m

/-- Number of leap years among years `1..y`. -/
def leapsBefore (y : Nat) : Nat := y / 4 - y / 100 + y / 400

/-- Proleptic-Gregorian ordinal of a calendar date, as in Python
`date(y, m, d).toordinal()` (so `dayOrdinal 1 1 1 = 1`). -/
def dayOrdinal (y m d : Nat) : Nat :=
  365 * (y - 1) + leapsBefore (y - 1) + daysBeforeMonth y m + d

/-- Floor of a rational as an integer. -/
def qfloor (x : ℚ) : ℤ := Int.floor x

/-- Round a rational to the nearest integer, ties to even — the rounding of
Python's built-in `round`. -/
def roundHalfEven (x : ℚ) : ℤ :=
  if x - (qfloor x : ℚ) < 1 / 2 then qfloor x
  else if 1 / 2 < x - (qfloor x : ℚ) then qfloor x + 1
  else if qfloor x % 2 = 0 then qfloor x else qfloor x + 1

/-- Python `round(x, 2)`: scale by 100, round half-to-even, scale back. -/
def pyRound2 (x : ℚ) : ℚ := ((roundHalfEven (x * 100) : ℤ) : ℚ) / 100

/-- Modelled from the spec (not the source): rounding to 2 decimal places
with ties AWAY from zero, the rounding rule the specification asserts.
Used only to compare the spec's claim against the program's rounding. -/
def specRoundHalfAway2 (x : ℚ) : ℚ :=
  if 0 ≤ x then ((qfloor (x * 100 + 1 / 2) : ℤ) : ℚ) / 100
  else -(((qfloor (-(x * 100) + 1 / 2) : ℤ) : ℚ) / 100)

/-- Row of table `patients`. -/
structure Patient where
  id : Nat
  name : String
  age : Option Int
  gender : Option String
  phone : Option String
  address : Option String
  medical_history : Option String
  image_path : Option String
deriving DecidableEq

/-- Row of table `doctors`. -/
structure Doctor where
  id : Nat
  name : String
  specialty : Option String
  phone : Option String
  email : Option String
deriving DecidableEq

/-- Row of table `treatments`. -/
structure Treatment where
  id : Nat
  name : String
  base_cost : Option ℚ
deriving DecidableEq

/-- Row of table `treatment_percentages` (the RevenueSplitRule). -/
structure TreatmentPercentage where
  id : Nat
  treatment_id : Option Nat
  doctor_id : Option Nat
  clinic_percentage : Option ℚ
  doctor_percentage : Option ℚ
deriving DecidableEq

/-- Row of table `appointments`. -/
structure Appointment where
  id : Nat
  patient_id : Option Nat
  doctor_id : Option Nat
  treatment_id : Option Nat
  date : Option DateTime
  status : Option String
  notes : Option String
deriving DecidableEq

/-- Row of table `payments`; `appointment_id` is nullable (walk-in). -/
structure Payment where
  id : Nat
  appointment_id : Option Nat
  total_amount : Option ℚ
  paid_amount : Option ℚ
  clinic_share : Option ℚ
  doctor_share : Option ℚ
  payment_method : Option String
  discounts : Option ℚ
  taxes : Option ℚ
  date_paid : Option DateTime
deriving DecidableEq

/-- Row of table `expenses`. -/
structure Expense where
  id : Nat
  description : Option String
  category : Option String
  amount : Option ℚ
  date : Option DateTime
deriving DecidableEq

/-- Row of table `inventory_items`. -/
structure InventoryItem where
  id : Nat
  name : String
  quantity : Option ℚ
  unit : Option String
  cost_per_unit : Option ℚ
  low_threshold : Option ℚ
deriving DecidableEq

/-- Row of table `daily_transactions` (the DailyManualEntry). -/
structure DailyTransaction where
  id : Nat
  date : Option DateTime
  income : Option ℚ
  expense : Option ℚ
  notes : Option String
deriving DecidableEq

/-- Row of table `daily_summaries` (stored snapshot artifact). -/
structure DailySummary where
  id : Nat
  date : Option DateTime
  total_income : Option ℚ
  clinic_income : Option ℚ
  doctor_income : Option ℚ
  total_expenses : Option ℚ
  net_profit : Option ℚ
  notes : Option String
deriving DecidableEq

/-- Row of table `suppliers`; `balance` is the stored running balance. -/
structure Supplier where
  id : Nat
  name : String
  category : Option String
  phone : Option String
  address : Option String
  balance : Option ℚ
  notes : Option String
deriving DecidableEq

/-- Row of table `supplier_transactions`. -/
structure SupplierTransaction where
  id : Nat
  supplier_id : Option Nat
  date : Option DateTime
  description : Option String
  amount : Option ℚ
  payment_method : Option String
deriving DecidableEq

/-- Row of table `supplier_invoices`. -/
structure SupplierInvoice where
  id : Nat
  supplier_id : Option Nat
  invoice_no : Option String
  date : Option DateTime
  amount : Option ℚ
  paid : Bool
  description : Option String
deriving DecidableEq

/-- The whole relational store. -/
structure DB where
  patients : List Patient
  doctors : List Doctor
  treatments : List Treatment
  treatmentPercentages : List TreatmentPercentage
  appointments : List Appointment
  payments : List Payment
  expenses : List Expense
  inventoryItems : List InventoryItem
  dailyTransactions : List DailyTransaction
  dailySummaries : List DailySummary
  suppliers : List Supplier
  supplierTransactions : List SupplierTransaction
  supplierInvoices : List SupplierInvoice
deriving DecidableEq

/-- SQLite assigns a fresh row id of max existing id plus one. -/
def nextIdBy {α : Type} (getId : α → Nat) (l : List α) : Nat :=
  l.foldl (fun m r => max m (getId r)) 0 + 1

/-- Left-fold sum, as Python `sum` over a generator. -/
def qsum (l : List ℚ) : ℚ := l.foldl (· + ·) 0

/-- Python `max(list, default=None)`; keeps the earlier element on ties. -/
def pyMax (l : List DateTime) : Option DateTime :=
  l.foldl (fun acc t =>
    match acc with
    | none => some t
    | some m => if dtLt m t then some t else some m) none

/-- `s.get(Appointment, appointment_id) if appointment_id else None`
(line 433 of `src/app.py`). -/
def lookupAppointment (db : DB) (appointment_id : Option Nat) : Option Appointment :=
  match appointment_id with
  | none => none
  | some i => db.appointments.find? (fun a => a.id == i)

/-- The `filter_by(treatment_id=…, doctor_id=…)` rule lookup of line 435;
`==` on `Option Nat` matches SQLAlchemy's `IS NULL` treatment of `None`. -/
def lookupRule (db : DB) (a : Appointment) : Option TreatmentPercentage :=
  db.treatmentPercentages.find? (fun tp =>
    tp.treatment_id == a.treatment_id && tp.doctor_id == a.doctor_id)

/-- Python `p or 50.0` on a nullable float: `None` and `0.0` are falsy. -/
def orFifty (x : Option ℚ) : ℚ :=
  match x with
  | none => 50
  | some v => if v = 0 then 50 else v

/-- The clinic/doctor percentages chosen by `calculate_shares`
(lines 433-441 of `src/app.py`). -/
def sharePercs (db : DB) (appointment_id : Option Nat) : ℚ × ℚ :=
  match lookupAppointment db appointment_id with
  | some a =>
    match lookupRule db a with
    | some perc => (orFifty perc.clinic_percentage, orFifty perc.doctor_percentage)
    | none => (50, 50)
  | none => (50, 50)

/-- `calculate_shares` (lines 431-445 of `src/app.py`):
`net = total - discounts + taxes`, each share rounded to 2 decimals. -/
def calculate_shares (db : DB) (appointment_id : Option Nat)
    (total_amount discounts taxes : ℚ) : ℚ × ℚ :=
  let net := total_amount - discounts + taxes
  (pyRound2 (net * ((sharePercs db appointment_id).1 / 100)),
   pyRound2 (net * ((sharePercs db appointment_id).2 / 100)))

/-- `add_payment` (lines 447-453), with `datetime.now()` passed explicitly. -/
def add_payment (db : DB) (appointment_id : Option Nat)
    (total_amount paid_amount : ℚ) (payment_method : Option String)
    (discounts taxes : ℚ) (now : DateTime) : DB × Nat :=
  let shares := calculate_shares db appointment_id total_amount discounts taxes
  let pid := nextIdBy Payment.id db.payments
  ({ db with payments := db.payments ++
      [⟨pid, appointment_id, some total_amount, some paid_amount,
        some shares.1, some shares.2, payment_method,
        some discounts, some taxes, some now⟩] }, pid)

/-- `delete_patient` (lines 303-307): `False` when the id is missing. -/
def delete_patient (db : DB) (patient_id : Nat) : DB × Bool :=
  match db.patients.find? (fun p => p.id == patient_id) with
  | none => (db, false)
  | some _ => ({ db with patients := db.patients.eraseP (fun p => p.id == patient_id) }, true)

/-- `edit_doctor` (lines 326-330): `False` when the id is missing. -/
def edit_doctor (db : DB) (doctor_id : Nat) (name : String)
    (specialty phone email : Option String) : DB × Bool :=
  match db.doctors.find? (fun d => d.id == doctor_id) with
  | none => (db, false)
  | some _ =>
    ({ db with doctors := db.doctors.map (fun d =>
        if d.id == doctor_id then
          { d with name := name, specialty := specialty, phone := phone, email := email }
        else d) }, true)

/-- `delete_payment` (lines 455-459): `False` when the id is missing. -/
def delete_payment (db : DB) (payment_id : Nat) : DB × Bool :=
  match db.payments.find? (fun p => p.id == payment_id) with
  | none => (db, false)
  | some _ => ({ db with payments := db.payments.eraseP (fun p => p.id == payment_id) }, true)

/-- The `if sup: sup.balance = (sup.balance or 0.0) + (amount or 0.0)` update
applied through `s.get(Supplier, supplier_id)`: the first row with the id is
changed, no row at all when the id is missing. -/
def updateSupplierBalance (l : List Supplier) (supplier_id : Nat) (amount : ℚ) : List Supplier :=
  match l with
  | [] => []
  | s :: rest =>
    if s.id == supplier_id then
      { s with balance := some (s.balance.getD 0 + amount) } :: rest
    else s :: updateSupplierBalance rest supplier_id amount

/-- `add_supplier_transaction` (lines 565-572): append the row, add the
amount to the stored balance when the supplier exists, return the new id. -/
def add_supplier_transaction (db : DB) (supplier_id : Nat)
    (description : Option String) (amount : ℚ) (payment_method : Option String)
    (now : DateTime) : DB × Nat :=
  let tid := nextIdBy SupplierTransaction.id db.supplierTransactions
  ({ db with
      supplierTransactions := db.supplierTransactions ++
        [⟨tid, some supplier_id, some now, description, some amount, payment_method⟩],
      suppliers := updateSupplierBalance db.suppliers supplier_id amount }, tid)

/-- `add_supplier_invoice` (lines 579-588): `date=None` defaults to now;
append the row and add the amount to the stored balance when the supplier
exists, return the new id. -/
def add_supplier_invoice (db : DB) (supplier_id : Nat)
    (invoice_no : Option String) (amount : ℚ) (description : Option String)
    (date : Option DateTime) (paid : Bool) (now : DateTime) : DB × Nat :=
  let d := date.getD now
  let iid := nextIdBy SupplierInvoice.id db.supplierInvoices
  ({ db with
      supplierInvoices := db.supplierInvoices ++
        [⟨iid, some supplier_id, invoice_no, some d, some amount, paid, description⟩],
      suppliers := updateSupplierBalance db.suppliers supplier_id amount }, iid)

/-- Output record of `get_patient_financial_summary`. -/
structure PatientFinancialSummary where
  total_amount : ℚ
  total_paid : ℚ
  balance : ℚ
  last_payment : Option DateTime
deriving DecidableEq

/-- The `query(Payment).join(Appointment).filter(Appointment.patient_id == pid)`
condition (line 600): an inner join on `Payment.appointment_id`, so a
payment with no appointment (or a dangling reference) never matches. -/
def joinCond (db : DB) (patient_id : Nat) (p : Payment) : Bool :=
  match p.appointment_id.bind (fun aid => db.appointments.find? (fun a => a.id == aid)) with
  | some a => a.patient_id == some patient_id
  | none => false

/-- The payments selected by `get_patient_financial_summary`. -/
def patientPayments (db : DB) (patient_id : Nat) : List Payment :=
  db.payments.filter (joinCond db patient_id)

/-- `get_patient_financial_summary` (lines 598-605). -/
def get_patient_financial_summary (db : DB) (patient_id : Nat) : PatientFinancialSummary :=
  let payments := patientPayments db patient_id
  let total_amount := qsum (payments.map (fun p => p.total_amount.getD 0))
  let total_paid := qsum (payments.map (fun p => p.paid_amount.getD 0))
  let balance := total_amount - total_paid
  let last_payment := pyMax (payments.filterMap (fun p => p.date_paid))
  ⟨total_amount, total_paid, balance, last_payment⟩

/-- `datetime.combine(date, time.min)` for day `d`. -/
def dayStart (d : Nat) : DateTime := ⟨d, 0⟩

/-- `datetime.combine(date, time.max)` for day `d`: 23:59:59.999999. -/
def dayEnd (d : Nat) : DateTime := ⟨d, 86399999999⟩

/-- Payments whose `date_paid` is `between(start, end)` for day `d`
(line 612); SQL `BETWEEN` is inclusive on both ends and `NULL` never
matches. -/
def dailyPayments (db : DB) (d : Nat) : List Payment :=
  db.payments.filter (fun p =>
    match p.date_paid with
    | some t => dtLe (dayStart d) t && dtLe t (dayEnd d)
    | none => false)

/-- Daily manual entries in the same inclusive window (line 617). -/
def dailyEntries (db : DB) (d : Nat) : List DailyTransaction :=
  db.dailyTransactions.filter (fun x =>
    match x.date with
    | some t => dtLe (dayStart d) t && dtLe t (dayEnd d)
    | none => false)

/-- Expenses in the same inclusive window (line 620). -/
def dailyExpenses (db : DB) (d : Nat) : List Expense :=
  db.expenses.filter (fun e =>
    match e.date with
    | some t => dtLe (dayStart d) t && dtLe t (dayEnd d)
    | none => false)

/-- Appointments in the same inclusive window (line 623). -/
def dailyAppointments (db : DB) (d : Nat) : List Appointment :=
  db.appointments.filter (fun a =>
    match a.date with
    | some t => dtLe (dayStart d) t && dtLe t (dayEnd d)
    | none => false)

/-- Output record of `get_daily_summary`. -/
structure DailySummaryOut where
  income_total : ℚ
  clinic_income : ℚ
  doctor_income : ℚ
  expense_total : ℚ
  net_profit : ℚ
  patients_count : Nat
  appointments_count : Nat
deriving DecidableEq

/-- `get_daily_summary` (lines 607-639).  Note `net_profit` is defined as
`clinic_income - total_expenses`, not gross income minus expenses. -/
def get_daily_summary (db : DB) (d : Nat) : DailySummaryOut :=
  let payments := dailyPayments db d
  let income_from_payments := qsum (payments.map (fun p => p.paid_amount.getD 0))
  let clinic_income_from_payments := qsum (payments.map (fun p => p.clinic_share.getD 0))
  let doctor_income_from_payments := qsum (payments.map (fun p => p.doctor_share.getD 0))
  let daily_entries := dailyEntries db d
  let extra_income := qsum (daily_entries.map (fun x => x.income.getD 0))
  let total_expense_from_daily := qsum (daily_entries.map (fun x => x.expense.getD 0))
  let expenses := dailyExpenses db d
  let total_expenses := qsum (expenses.map (fun e => e.amount.getD 0)) + total_expense_from_daily
  let appointments := dailyAppointments db d
  let patients_count := (appointments.map (fun a => a.patient_id)).dedup.length
  let appointments_count := appointments.length
  ⟨income_from_payments + extra_income, clinic_income_from_payments,
   doctor_income_from_payments, total_expenses,
   clinic_income_from_payments - total_expenses, patients_count, appointments_count⟩

/-- `datetime(year, month, 1)` (line 642). -/
def monthStart (y m : Nat) : DateTime := ⟨dayOrdinal y m 1, 0⟩

/-- First instant of the following month (lines 643-646, before the
one-second subtraction). -/
def nextMonthStart (y m : Nat) : DateTime :=
  if m == 12 then ⟨dayOrdinal (y + 1) 1 1, 0⟩ else ⟨dayOrdinal y (m + 1) 1, 0⟩

/-- The month window's upper bound: first day of the next month minus one
second (lines 643-646). -/
def monthEnd (y m : Nat) : DateTime := dtSubOneSecond (nextMonthStart y m)

/-- Payments with `date_paid.between(start, end)` for the month (line 648). -/
def monthPayments (db : DB) (y m : Nat) : List Payment :=
  db.payments.filter (fun p =>
    match p.date_paid with
    | some t => dtLe (monthStart y m) t && dtLe t (monthEnd y m)
    | none => false)

/-- Expenses in the month window (line 649). -/
def monthExpenses (db : DB) (y m : Nat) : List Expense :=
  db.expenses.filter (fun e =>
    match e.date with
    | some t => dtLe (monthStart y m) t && dtLe t (monthEnd y m)
    | none => false)

/-- Daily manual entries in the month window (line 650). -/
def monthDaily (db : DB) (y m : Nat) : List DailyTransaction :=
  db.dailyTransactions.filter (fun x =>
    match x.date with
    | some t => dtLe (monthStart y m) t && dtLe t (monthEnd y m)
    | none => false)

/-- One value of the `recs` dictionary of `get_monthly_financials`. -/
structure MRec where
  income : ℚ
  expense : ℚ
  clinic : ℚ
  doctor : ℚ
deriving DecidableEq

/-- `recs.setdefault(d, zeros)` followed by an in-place update of the value
at key `d`; keys keep their first-insertion order, as in a Python dict. -/
def updRecs (d : Nat) (f : MRec → MRec) : List (Nat × MRec) → List (Nat × MRec)
  | [] => [(d, f ⟨0, 0, 0, 0⟩)]
  | (k, v) :: rest =>
    if k = d then (k, f v) :: rest else (k, v) :: updRecs d f rest

/-- One of the three record loops of `get_monthly_financials` (lines
652-669): records with a null date are skipped, the rest update the bucket
of their calendar date. -/
def foldRecs {α : Type} (dateOf : α → Option Nat) (f : α → MRec → MRec)
    (l : List α) (recs : List (Nat × MRec)) : List (Nat × MRec) :=
  l.foldl (fun acc r =>
    match dateOf r with
    | some d => updRecs d (f r) acc
    | none => acc) recs

/-- Bucket update for a payment (lines 656-658). -/
def payRecAdd (p : Payment) (r : MRec) : MRec :=
  { r with income := r.income + p.paid_amount.getD 0,
           clinic := r.clinic + p.clinic_share.getD 0,
           doctor := r.doctor + p.doctor_share.getD 0 }

/-- Bucket update for an expense (line 663). -/
def expRecAdd (e : Expense) (r : MRec) : MRec :=
  { r with expense := r.expense + e.amount.getD 0 }

/-- Bucket update for a daily manual entry (lines 668-669). -/
def dtxRecAdd (x : DailyTransaction) (r : MRec) : MRec :=
  { r with income := r.income + x.income.getD 0,
           expense := r.expense + x.expense.getD 0 }

/-- The fully built `recs` dictionary of `get_monthly_financials`. -/
def monthlyRecs (db : DB) (y m : Nat) : List (Nat × MRec) :=
  foldRecs (fun x => x.date.map DateTime.ord) dtxRecAdd (monthDaily db y m)
    (foldRecs (fun e => e.date.map DateTime.ord) expRecAdd (monthExpenses db y m)
      (foldRecs (fun p => p.date_paid.map DateTime.ord) payRecAdd (monthPayments db y m) []))

/-- Keys of the `recs` dictionary. -/
def recKeys (recs : List (Nat × MRec)) : List Nat := recs.map Prod.fst

/-- Output row of `get_monthly_financials`. -/
structure MRow where
  date : Nat
  income : ℚ
  expense : ℚ
  clinic : ℚ
  doctor : ℚ
  net : ℚ
deriving DecidableEq

/-- The row built for date `d` (line 671): `net = income - expense`. -/
def monthlyRow (recs : List (Nat × MRec)) (d : Nat) : MRow :=
  let r := ((recs.find? (fun kv => kv.1 == d)).map Prod.snd).getD ⟨0, 0, 0, 0⟩
  ⟨d, r.income, r.expense, r.clinic, r.doctor, r.income - r.expense⟩

/-- `get_monthly_financials` (lines 641-672): one row per key of `recs`,
in ascending date order (`sorted(recs.keys())`). -/
def get_monthly_financials (db : DB) (y m : Nat) : List MRow :=
  (List.insertionSort (· ≤ ·) (recKeys (monthlyRecs db y m))).map
    (monthlyRow (monthlyRecs db y m))

/-- The empty store. -/
def dbEmpty : DB := ⟨[], [], [], [], [], [], [], [], [], [], [], [], []⟩

/-- Appointment for the configured-split scenario: treatment 1, doctor 1. -/
def a2 : Appointment := ⟨1, some 1, some 1, some 1, none, none, none⟩

/-- Split rule clinic 60 / doctor 40 for (treatment 1, doctor 1). -/
def tp2 : TreatmentPercentage := ⟨1, some 1, some 1, some 60, some 40⟩

/-- Store with one appointment and a configured 60/40 split rule. -/
def dbC2 : DB := { dbEmpty with appointments := [a2], treatmentPercentages := [tp2] }

/-- Noon of 2024-05-15 (ordinal 739021). -/
def dt0 : DateTime := ⟨739021, 43200000000⟩

/-- A payment of 100, split 60/40, paid on 2024-05-15. -/
def p3 : Payment := ⟨1, none, some 100, some 100, some 60, some 40, none, some 0, some 0, some dt0⟩

/-- An expense of 20 on 2024-05-15. -/
def e3 : Expense := ⟨1, none, none, some 20, some ⟨739021, 30000000000⟩⟩

/-- Store with one payment and one expense on the same day. -/
def dbC3 : DB := { dbEmpty with payments := [p3], expenses := [e3] }

/-- Appointment for the falsy-percentage scenario. -/
def a4 : Appointment := ⟨1, some 2, some 3, some 4, none, none, none⟩

/-- Split rule with an explicitly stored clinic percentage of 0. -/
def tp4 : TreatmentPercentage := ⟨1, some 4, some 3, some 0, some 70⟩

/-- Store with a rule whose clinic percentage is the falsy 0. -/
def dbC4 : DB := { dbEmpty with appointments := [a4], treatmentPercentages := [tp4] }

/-- A payment stamped at exactly 23:59:59.999999 of day 700000. -/
def p5 : Payment := ⟨1, none, some 10, some 10, some 5, some 5, none, some 0, some 0, some ⟨700000, 86399999999⟩⟩

/-- Store with the boundary-stamped payment. -/
def dbC5 : DB := { dbEmpty with payments := [p5] }

/-- Timestamp of the linked payment of the patient-balance scenario. -/
def t7 : DateTime := ⟨700100, 3600000000⟩

/-- Appointment of patient 7. -/
def ap7 : Appointment := ⟨1, some 7, none, none, none, none, none⟩

/-- Payment linked to patient 7's appointment: total 50, paid 30. -/
def p71 : Payment := ⟨1, some 1, some 50, some 30, some 25, some 25, none, some 0, some 0, some t7⟩

/-- Walk-in payment (no appointment): total 1000, paid 1000. -/
def p72 : Payment := ⟨2, none, some 1000, some 1000, some 500, some 500, none, some 0, some 0, some ⟨700101, 0⟩⟩

/-- Store for the walk-in-exclusion scenario. -/
def dbC7 : DB := { dbEmpty with appointments := [ap7], payments := [p71, p72] }

/-- Supplier with stored balance 0. -/
def sup8 : Supplier := ⟨1, "S", none, none, none, some 0, none⟩

/-- Store with one supplier of balance 0. -/
def dbC8 : DB := { dbEmpty with suppliers := [sup8] }

/-- Timestamp used for the supplier-ledger scenario. -/
def dt8 : DateTime := ⟨700200, 0⟩


lemma recKeys_nil : recKeys [] = [] := rfl

lemma recKeys_cons (kv : Nat × MRec) (rest : List (Nat × MRec)) :
    recKeys (kv :: rest) = kv.1 :: recKeys rest := rfl

lemma mem_recKeys_updRecs (x d : Nat) (f : MRec → MRec) (recs : List (Nat × MRec)) :
    x ∈ recKeys (updRecs d f recs) ↔ x ∈ recKeys recs ∨ x = d := by
  induction recs with
  | nil => simp [updRecs, recKeys]
  | cons kv rest ih =>
    obtain ⟨k, v⟩ := kv
    rw [updRecs]
    by_cases h : k = d
    · rw [if_pos h, recKeys_cons, recKeys_cons]
      subst h
      simp only [List.mem_cons]
      tauto
    · rw [if_neg h, recKeys_cons, recKeys_cons]
      simp only [List.mem_cons, ih]
      tauto

lemma nodup_recKeys_updRecs (d : Nat) (f : MRec → MRec) (recs : List (Nat × MRec))
    (h : (recKeys recs).Nodup) : (recKeys (updRecs d f recs)).Nodup := by
  induction recs with
  | nil => simp [updRecs, recKeys]
  | cons kv rest ih =>
    obtain ⟨k, v⟩ := kv
    rw [recKeys_cons, List.nodup_cons] at h
    rw [updRecs]
    by_cases hk : k = d
    · rw [if_pos hk, recKeys_cons, List.nodup_cons]
      exact h
    · rw [if_neg hk, recKeys_cons, List.nodup_cons]
      refine ⟨fun hmem => ?_, ih h.2⟩
      rcases (mem_recKeys_updRecs k d f rest).mp hmem with hm | he
      · exact h.1 hm
      · exact hk he

lemma foldRecs_cons_none {α : Type} (dateOf : α → Option Nat) (f : α → MRec → MRec)
    (r : α) (rest : List α) (recs : List (Nat × MRec)) (h : dateOf r = none) :
    foldRecs dateOf f (r :: rest) recs = foldRecs dateOf f rest recs := by
  simp only [foldRecs, List.foldl_cons, h]

lemma foldRecs_cons_some {α : Type} (dateOf : α → Option Nat) (f : α → MRec → MRec)
    (r : α) (rest : List α) (recs : List (Nat × MRec)) (d : Nat) (h : dateOf r = some d) :
    foldRecs dateOf f (r :: rest) recs = foldRecs dateOf f rest (updRecs d (f r) recs) := by
  simp only [foldRecs, List.foldl_cons, h]

lemma mem_recKeys_foldRecs {α : Type} (dateOf : α → Option Nat) (f : α → MRec → MRec)
    (l : List α) (recs : List (Nat × MRec)) (x : Nat) :
    x ∈ recKeys (foldRecs dateOf f l recs) ↔
      x ∈ recKeys recs ∨ ∃ r, r ∈ l ∧ dateOf r = some x := by
  induction l generalizing recs with
  | nil => simp [foldRecs]
  | cons r rest ih =>
    cases hd : dateOf r with
    | none =>
      rw [foldRecs_cons_none dateOf f r rest recs hd, ih]
      constructor
      · rintro (hm | ⟨r', h1, h2⟩)
        · exact Or.inl hm
        · exact Or.inr ⟨r', List.mem_cons_of_mem r h1, h2⟩
      · rintro (hm | ⟨r', h1, h2⟩)
        · exact Or.inl hm
        · rcases List.mem_cons.mp h1 with rfl | h1'
          · rw [hd] at h2; cases h2
          · exact Or.inr ⟨r', h1', h2⟩
    | some d =>
      rw [foldRecs_cons_some dateOf f r rest recs d hd, ih, mem_recKeys_updRecs]
      constructor
      · rintro ((hm | rfl) | ⟨r', h1, h2⟩)
        · exact Or.inl hm
        · exact Or.inr ⟨r, List.mem_cons_self r rest, hd⟩
        · exact Or.inr ⟨r', List.mem_cons_of_mem r h1, h2⟩
      · rintro (hm | ⟨r', h1, h2⟩)
        · exact Or.inl (Or.inl hm)
        · rcases List.mem_cons.mp h1 with rfl | h1'
          · rw [hd] at h2
            exact Or.inl (Or.inr (Option.some.inj h2).symm)
          · exact Or.inr ⟨r', h1', h2⟩

lemma nodup_recKeys_foldRecs {α : Type} (dateOf : α → Option Nat) (f : α → MRec → MRec)
    (l : List α) (recs : List (Nat × MRec)) (h : (recKeys recs).Nodup) :
    (recKeys (foldRecs dateOf f l recs)).Nodup := by
  induction l generalizing recs with
  | nil => simpa [foldRecs] using h
  | cons r rest ih =>
    cases hd : dateOf r with
    | none =>
      rw [foldRecs_cons_none dateOf f r rest recs hd]
      exact ih recs h
    | some d =>
      rw [foldRecs_cons_some dateOf f r rest recs d hd]
      exact ih _ (nodup_recKeys_updRecs d (f r) recs h)

lemma nodup_recKeys_monthlyRecs (db : DB) (y m : Nat) :
    (recKeys (monthlyRecs db y m)).Nodup := by
  unfold monthlyRecs
  refine nodup_recKeys_foldRecs _ _ _ _ ?_
  refine nodup_recKeys_foldRecs _ _ _ _ ?_
  refine nodup_recKeys_foldRecs _ _ _ _ ?_
  simp [recKeys]

lemma map_date_monthly (db : DB) (y m : Nat) :
    (get_monthly_financials db y m).map MRow.date =
      List.insertionSort (· ≤ ·) (recKeys (monthlyRecs db y m)) := by
  unfold get_monthly_financials
  rw [List.map_map]
  have h : MRow.date ∘ monthlyRow (monthlyRecs db y m) = fun d => d := by
    funext d; rfl
  rw [h, List.map_id']

lemma find?_updateSupplierBalance (l : List Supplier) (sid : Nat) (amt : ℚ) (sup : Supplier)
    (h : l.find? (fun s => s.id == sid) = some sup) :
    (updateSupplierBalance l sid amt).find? (fun s => s.id == sid) =
      some { sup with balance := some (sup.balance.getD 0 + amt) } := by
  induction l with
  | nil => simp at h
  | cons s rest ih =>
    by_cases hs : (s.id == sid) = true
    · rw [List.find?_cons_of_pos rest hs] at h
      have hsup : s = sup := Option.some.inj h
      subst hsup
      rw [updateSupplierBalance, if_pos hs]
      exact List.find?_cons_of_pos _ hs
    · rw [List.find?_cons_of_neg rest hs] at h
      rw [updateSupplierBalance, if_neg hs,
        List.find?_cons_of_neg (updateSupplierBalance rest sid amt) hs]
      exact ih h

lemma updateSupplierBalance_of_none (l : List Supplier) (sid : Nat) (amt : ℚ)
    (h : l.find? (fun s => s.id == sid) = none) :
    updateSupplierBalance l sid amt = l := by
  induction l with
  | nil => rfl
  | cons s rest ih =>
    rw [List.find?_eq_none] at h
    have hs : ¬((s.id == sid) = true) := h s (List.mem_cons_self s rest)
    rw [updateSupplierBalance, if_neg hs]
    rw [ih (List.find?_eq_none.mpr (fun x hx => h x (List.mem_cons_of_mem s hx)))]

/-- C1 counterexample: the claim asserts an exact 50/50 split for walk-in
payments regardless of amount, but `calculate_shares` rounds each share to
2 decimals.  At total 0.25 (a dyadic rational, float-exact) the code
returns 0.12 for each share — `round(0.125, 2) = 0.12` in Python — while
an exact half would be 0.125. -/
theorem c1_counterexample :
    calculate_shares dbEmpty none (1 / 4) 0 0 = (3 / 25, 3 / 25) ∧
      ¬((calculate_shares dbEmpty none (1 / 4) 0 0).1 = ((1 / 4 - 0 + 0) * (50 / 100) : ℚ)) := by
  constructor <;>
    norm_num [calculate_shares, sharePercs, lookupAppointment, dbEmpty, pyRound2,
      roundHalfEven, qfloor]

/-- C1 (amended): for a walk-in payment (no appointment reference) or a
(treatment, doctor) pair with no configured split rule, `calculate_shares`
returns equal clinic and doctor shares, each equal to 50% of the net
amount rounded to 2 decimal places (so the split is exactly 50/50 only
when half the net is representable in 2 decimals). -/
theorem c1_split_default (db : DB) (appointment_id : Option Nat)
    (total discounts taxes : ℚ)
    (h : lookupAppointment db appointment_id = none ∨
      ∃ a, lookupAppointment db appointment_id = some a ∧ lookupRule db a = none) :
    calculate_shares db appointment_id total discounts taxes =
      (pyRound2 ((total - discounts + taxes) * (50 / 100)),
       pyRound2 ((total - discounts + taxes) * (50 / 100))) := by
  have hp : sharePercs db appointment_id = (50, 50) := by
    rcases h with h | ⟨a, h1, h2⟩
    · simp only [sharePercs, h]
    · simp only [sharePercs, h1, h2]
  simp only [calculate_shares, hp]

/-- C1 witness: the spec's own default scenario — walk-in, total 200 —
gives shares (100, 100). -/
theorem c1_split_default_witness :
    calculate_shares dbEmpty none 200 0 0 =
      (pyRound2 ((200 - 0 + 0) * (50 / 100)), pyRound2 ((200 - 0 + 0) * (50 / 100))) ∧
    calculate_shares dbEmpty none 200 0 0 = (100, 100) := by
  constructor
  · exact c1_split_default dbEmpty none 200 0 0 (Or.inl rfl)
  · norm_num [calculate_shares, sharePercs, lookupAppointment, dbEmpty, pyRound2,
      roundHalfEven, qfloor]

/-- C2 counterexample: the claim asserts round-half-away-from-zero, but
Python's `round` is round-half-to-even.  At total 1.25, walk-in (50%),
the share is `round(0.625, 2) = 0.62`, not the 0.63 that
half-away-from-zero would give (all values here are float-exact). -/
theorem c2_counterexample :
    calculate_shares dbEmpty none (5 / 4) 0 0 = (31 / 50, 31 / 50) ∧
      ¬((calculate_shares dbEmpty none (5 / 4) 0 0).1 =
        specRoundHalfAway2 ((5 / 4 - 0 + 0) * (50 / 100))) := by
  constructor <;>
    norm_num [calculate_shares, sharePercs, lookupAppointment, dbEmpty, pyRound2,
      roundHalfEven, qfloor, specRoundHalfAway2]

/-- C2 (amended): `calculate_shares` computes net = total - discounts +
taxes (taxes added, not subtracted) and returns each share as
`round(net * percent / 100, 2)` with Python's round-half-to-even (not
half-away-from-zero); with the configured 60/40 rule, total 100,
discounts 10, taxes 5 the result is (57, 38). -/
theorem c2_share_formula :
    (∀ (db : DB) (appointment_id : Option Nat) (total discounts taxes : ℚ),
      calculate_shares db appointment_id total discounts taxes =
        (pyRound2 ((total - discounts + taxes) * ((sharePercs db appointment_id).1 / 100)),
         pyRound2 ((total - discounts + taxes) * ((sharePercs db appointment_id).2 / 100))))
    ∧ calculate_shares dbC2 (some 1) 100 10 5 = (57, 38) := by
  constructor
  · intro db appointment_id total discounts taxes
    rfl
  · norm_num [calculate_shares, sharePercs, lookupAppointment, lookupRule, orFifty,
      dbC2, dbEmpty, a2, tp2, pyRound2, roundHalfEven, qfloor, List.find?]

/-- C3: the two aggregators use distinct net definitions — `get_daily_summary`
returns net_profit = clinic_income - expense_total, while every row of
`get_monthly_financials` has net = income - expense; on the scenario store
(one payment paid 100 with clinic share 60, one expense 20 on 2024-05-15)
the daily net profit is 40 while the monthly net for that date is 80. -/
theorem c3_net_definitions :
    (∀ (db : DB) (d : Nat),
      (get_daily_summary db d).net_profit =
        (get_daily_summary db d).clinic_income - (get_daily_summary db d).expense_total)
    ∧ (∀ (db : DB) (y m : Nat),
      (get_monthly_financials db y m).all
        (fun row => decide (row.net = row.income - row.expense)) = true)
    ∧ get_daily_summary dbC3 739021 = ⟨100, 60, 40, 20, 40, 0, 0⟩
    ∧ get_monthly_financials dbC3 2024 5 = [⟨739021, 100, 20, 60, 40, 80⟩] := by
  refine ⟨fun db d => rfl, fun db y m => ?_, ?_, ?_⟩
  · apply List.all_eq_true.mpr
    intro row hrow
    rw [get_monthly_financials] at hrow
    rcases List.mem_map.mp hrow with ⟨d, hd, rfl⟩
    simp [monthlyRow]
  · norm_num [get_daily_summary, dailyPayments, dailyEntries, dailyExpenses,
      dailyAppointments, dbC3, dbEmpty, p3, e3, dt0, dayStart, dayEnd, dtLe, qsum]
  · norm_num [get_monthly_financials, monthlyRecs, monthPayments, monthExpenses,
      monthDaily, monthStart, monthEnd, nextMonthStart, dtSubOneSecond, dayOrdinal,
      daysBeforeMonth, daysInMonth, isLeap, leapsBefore, dbC3, dbEmpty, p3, e3, dt0,
      dtLe, foldRecs, updRecs, payRecAdd, expRecAdd, dtxRecAdd, recKeys,
      List.insertionSort, List.orderedInsert, monthlyRow, List.find?]

/-- C4: when a rule exists for the pair but a stored percentage is falsy
(null or 0), `calculate_shares` substitutes 50 for that percentage while
still honouring the other stored percentage (`orFifty` maps `none` and
`some 0` to 50 and is the identity on any non-zero stored value), so an
explicitly stored clinic percentage of 0 behaves exactly like an unset
one. -/
theorem c4_falsy_percentage (db : DB) (appointment_id : Option Nat)
    (a : Appointment) (perc : TreatmentPercentage) (total discounts taxes : ℚ)
    (h1 : lookupAppointment db appointment_id = some a)
    (h2 : lookupRule db a = some perc)
    (h3 : perc.clinic_percentage = none ∨ perc.clinic_percentage = some 0) :
    calculate_shares db appointment_id total discounts taxes =
      (pyRound2 ((total - discounts + taxes) * (50 / 100)),
       pyRound2 ((total - discounts + taxes) * (orFifty perc.doctor_percentage / 100)))
    ∧ orFifty none = 50 ∧ orFifty (some 0) = 50
    ∧ ∀ q : ℚ, ¬(q = 0) → orFifty (some q) = q := by
  have hc : orFifty perc.clinic_percentage = 50 := by
    rcases h3 with h | h <;> simp [orFifty, h]
  have hp : sharePercs db appointment_id = (50, orFifty perc.doctor_percentage) := by
    simp only [sharePercs, h1, h2, hc]
  refine ⟨?_, rfl, by norm_num [orFifty], fun q hq => by simp [orFifty, hq]⟩
  simp only [calculate_shares, hp]

/-- C4 witness: rule with stored clinic percentage 0 and doctor
percentage 70; total 100 gives shares (50, 70). -/
theorem c4_falsy_percentage_witness :
    calculate_shares dbC4 (some 1) 100 0 0 =
      (pyRound2 ((100 - 0 + 0) * (50 / 100)),
       pyRound2 ((100 - 0 + 0) * (orFifty tp4.doctor_percentage / 100)))
    ∧ calculate_shares dbC4 (some 1) 100 0 0 = (50, 70) := by
  constructor
  · exact (c4_falsy_percentage dbC4 (some 1) a4 tp4 100 0 0 rfl rfl (Or.inr rfl)).1
  · norm_num [calculate_shares, sharePercs, lookupAppointment, lookupRule, orFifty,
      dbC4, dbEmpty, a4, tp4, pyRound2, roundHalfEven, qfloor, List.find?]

/-- C5: `get_daily_summary`'s window is inclusive on both ends — a payment
stamped exactly 23:59:59.999999 of day D is selected by the day-D window
and not by the day-(D+1) window. -/
theorem c5_day_boundary (db : DB) (p : Payment) (D : Nat)
    (h1 : p ∈ db.payments) (h2 : p.date_paid = some ⟨D, 86399999999⟩) :
    p ∈ dailyPayments db D ∧ p ∉ dailyPayments db (D + 1) := by
  constructor
  · refine List.mem_filter.mpr ⟨h1, ?_⟩
    simp [h2, dayStart, dayEnd, dtLe]
  · intro hmem
    have hc := (List.mem_filter.mp hmem).2
    simp only [h2, dayStart, dayEnd, dtLe, Bool.and_eq_true, Bool.or_eq_true,
      decide_eq_true_eq, beq_iff_eq] at hc
    omega

/-- C5 witness: the boundary payment of day 700000 is selected for day
700000 and not for day 700001. -/
theorem c5_day_boundary_witness :
    p5 ∈ dbC5.payments ∧
      (p5 ∈ dailyPayments dbC5 700000 ∧ p5 ∉ dailyPayments dbC5 (700000 + 1)) := by
  have hmem : p5 ∈ dbC5.payments := by simp [dbC5, dbEmpty]
  exact ⟨hmem, c5_day_boundary dbC5 p5 700000 hmem rfl⟩

/-- C6: `get_monthly_financials` emits dates in ascending order with no
duplicates; a date appears exactly when some in-window payment, expense,
or daily manual entry has that calendar date; the window's upper bound is
the first instant of the next month minus one second (last day of the
month at 23:59:59.000000), so any timestamp of the last day strictly past
23:59:59.000000 compares outside the window. -/
theorem c6_monthly_shape (db : DB) (y m : Nat) :
    List.Sorted (· ≤ ·) ((get_monthly_financials db y m).map MRow.date)
    ∧ ((get_monthly_financials db y m).map MRow.date).Nodup
    ∧ (∀ d : Nat, d ∈ (get_monthly_financials db y m).map MRow.date ↔
        ((∃ p, p ∈ monthPayments db y m ∧ p.date_paid.map DateTime.ord = some d)
          ∨ (∃ e, e ∈ monthExpenses db y m ∧ e.date.map DateTime.ord = some d)
          ∨ (∃ x, x ∈ monthDaily db y m ∧ x.date.map DateTime.ord = some d)))
    ∧ monthEnd y m = ⟨(nextMonthStart y m).ord - 1, 86399000000⟩
    ∧ (∀ u : Nat, dtLe ⟨(monthEnd y m).ord, 86399000001 + u⟩ (monthEnd y m) = false) := by
  have hend : monthEnd y m = ⟨(nextMonthStart y m).ord - 1, 86399000000⟩ := by
    by_cases hm : (m == 12) = true <;>
      simp [monthEnd, nextMonthStart, dtSubOneSecond, hm]
  refine ⟨?_, ?_, ?_, hend, ?_⟩
  · rw [map_date_monthly]
    exact List.sorted_insertionSort _ _
  · rw [map_date_monthly]
    exact ((List.perm_insertionSort _ _).nodup_iff).mpr (nodup_recKeys_monthlyRecs db y m)
  · intro d
    rw [map_date_monthly, List.mem_insertionSort]
    unfold monthlyRecs
    rw [mem_recKeys_foldRecs, mem_recKeys_foldRecs, mem_recKeys_foldRecs]
    simp only [recKeys_nil, List.not_mem_nil, false_or]
    exact or_assoc
  · intro u
    rw [hend]
    simp only [dtLe, Bool.or_eq_false_iff, Bool.and_eq_false_iff, decide_eq_false_iff_not,
      beq_eq_false_iff_ne, ne_eq, decide_eq_true_eq]
    omega

/-- C7: `get_patient_financial_summary` sums only payments joined to an
appointment of the patient — every selected payment carries an appointment
reference, so walk-in payments never contribute — with
balance = total_amount - total_paid; on the scenario store (linked payment
50/30, walk-in 1000/1000) the result is totals 50/30, balance 20, and the
last payment date is the linked payment's date. -/
theorem c7_patient_balance :
    (∀ (db : DB) (patient_id : Nat),
      (get_patient_financial_summary db patient_id).balance =
        (get_patient_financial_summary db patient_id).total_amount -
          (get_patient_financial_summary db patient_id).total_paid)
    ∧ (∀ (db : DB) (patient_id : Nat),
        (patientPayments db patient_id).all (fun p => p.appointment_id.isSome) = true)
    ∧ get_patient_financial_summary dbC7 7 = ⟨50, 30, 20, some t7⟩ := by
  refine ⟨fun db patient_id => rfl, fun db patient_id => ?_, ?_⟩
  · apply List.all_eq_true.mpr
    intro p hp
    have hc := (List.mem_filter.mp hp).2
    cases happ : p.appointment_id with
    | none => simp [joinCond, happ] at hc
    | some a => simp [happ]
  · norm_num [get_patient_financial_summary, patientPayments, joinCond, dbC7, dbEmpty,
      ap7, p71, p72, t7, qsum, pyMax, dtLt, List.find?, List.filterMap_cons,
      List.filterMap_nil, List.foldl_cons, List.foldl_nil]

/-- C8: for an existing supplier, `add_supplier_transaction` and
`add_supplier_invoice` each append their row and add the amount directly
to the stored balance; chaining a transaction of 100 and an invoice of 50
from balance 0 leaves the stored balance at 150. -/
theorem c8_supplier_running_balance (db : DB) (sid : Nat) (sup : Supplier)
    (desc : Option String) (amt : ℚ) (method : Option String) (now : DateTime)
    (inv_no idesc : Option String) (idate : Option DateTime) (pd : Bool)
    (h : db.suppliers.find? (fun s => s.id == sid) = some sup) :
    ((add_supplier_transaction db sid desc amt method now).1).suppliers.find?
        (fun s => s.id == sid) = some { sup with balance := some (sup.balance.getD 0 + amt) }
    ∧ ((add_supplier_transaction db sid desc amt method now).1).supplierTransactions =
        db.supplierTransactions ++
          [⟨nextIdBy SupplierTransaction.id db.supplierTransactions, some sid, some now,
            desc, some amt, method⟩]
    ∧ ((add_supplier_invoice db sid inv_no amt idesc idate pd now).1).suppliers.find?
        (fun s => s.id == sid) = some { sup with balance := some (sup.balance.getD 0 + amt) }
    ∧ ((add_supplier_invoice db sid inv_no amt idesc idate pd now).1).supplierInvoices =
        db.supplierInvoices ++
          [⟨nextIdBy SupplierInvoice.id db.supplierInvoices, some sid, inv_no,
            some (idate.getD now), some amt, pd, idesc⟩]
    ∧ (((add_supplier_invoice ((add_supplier_transaction dbC8 1 none 100 none dt8).1)
          1 none 50 none none false dt8).1).suppliers.find? (fun s => s.id == 1)).map
        Supplier.balance = some (some 150) := by
  refine ⟨?_, rfl, ?_, rfl, ?_⟩
  · exact find?_updateSupplierBalance db.suppliers sid amt sup h
  · exact find?_updateSupplierBalance db.suppliers sid amt sup h
  · norm_num [add_supplier_transaction, add_supplier_invoice, updateSupplierBalance,
      dbC8, dbEmpty, sup8, nextIdBy, List.find?]

/-- C8 witness: the theorem applied to the one-supplier store with a
transaction of amount 100. -/
theorem c8_supplier_running_balance_witness :
    ((add_supplier_transaction dbC8 1 none 100 none dt8).1).suppliers.find?
        (fun s => s.id == 1) = some { sup8 with balance := some (sup8.balance.getD 0 + 100) }
    ∧ ((add_supplier_transaction dbC8 1 none 100 none dt8).1).supplierTransactions =
        dbC8.supplierTransactions ++
          [⟨nextIdBy SupplierTransaction.id dbC8.supplierTransactions, some 1, some dt8,
            none, some 100, none⟩]
    ∧ ((add_supplier_invoice dbC8 1 none 100 none none false dt8).1).suppliers.find?
        (fun s => s.id == 1) = some { sup8 with balance := some (sup8.balance.getD 0 + 100) }
    ∧ ((add_supplier_invoice dbC8 1 none 100 none none false dt8).1).supplierInvoices =
        dbC8.supplierInvoices ++
          [⟨nextIdBy SupplierInvoice.id dbC8.supplierInvoices, some 1, none,
            some ((none : Option DateTime).getD dt8), some 100, false, none⟩]
    ∧ (((add_supplier_invoice ((add_supplier_transaction dbC8 1 none 100 none dt8).1)
          1 none 50 none none false dt8).1).suppliers.find? (fun s => s.id == 1)).map
        Supplier.balance = some (some 150) :=
  c8_supplier_running_balance dbC8 1 sup8 none 100 none dt8 none none none false rfl

/-- C9: an edit or delete against a missing identifier returns the failure
indicator `false` and leaves the store unchanged, for `delete_patient`,
`edit_doctor` and `delete_payment`. -/
theorem c9_not_found (db : DB) (pid did payid : Nat) (name : String)
    (specialty phone email : Option String)
    (h1 : db.patients.find? (fun p => p.id == pid) = none)
    (h2 : db.doctors.find? (fun d => d.id == did) = none)
    (h3 : db.payments.find? (fun p => p.id == payid) = none) :
    delete_patient db pid = (db, false)
    ∧ edit_doctor db did name specialty phone email = (db, false)
    ∧ delete_payment db payid = (db, false) := by
  refine ⟨?_, ?_, ?_⟩
  · simp only [delete_patient, h1]
  · simp only [edit_doctor, h2]
  · simp only [delete_payment, h3]

/-- C9 witness: all three operations against the empty store. -/
theorem c9_not_found_witness :
    delete_patient dbEmpty 1 = (dbEmpty, false)
    ∧ edit_doctor dbEmpty 1 "x" none none none = (dbEmpty, false)
    ∧ delete_payment dbEmpty 1 = (dbEmpty, false) :=
  c9_not_found dbEmpty 1 1 1 "x" none none none rfl rfl rfl

/-- C10: when the supplier id matches no stored supplier, the transaction
or invoice row is still appended and its fresh id returned (no failure is
signalled), and the supplier table — hence every balance — is unchanged. -/
theorem c10_missing_supplier (db : DB) (sid : Nat) (desc : Option String) (amt : ℚ)
    (method : Option String) (now : DateTime) (inv_no idesc : Option String)
    (idate : Option DateTime) (pd : Bool)
    (h : db.suppliers.find? (fun s => s.id == sid) = none) :
    add_supplier_transaction db sid desc amt method now =
      ({ db with supplierTransactions := db.supplierTransactions ++
          [⟨nextIdBy SupplierTransaction.id db.supplierTransactions, some sid, some now,
            desc, some amt, method⟩] },
       nextIdBy SupplierTransaction.id db.supplierTransactions)
    ∧ add_supplier_invoice db sid inv_no amt idesc idate pd now =
      ({ db with supplierInvoices := db.supplierInvoices ++
          [⟨nextIdBy SupplierInvoice.id db.supplierInvoices, some sid, inv_no,
            some (idate.getD now), some amt, pd, idesc⟩] },
       nextIdBy SupplierInvoice.id db.supplierInvoices) := by
  have hu := updateSupplierBalance_of_none db.suppliers sid amt h
  constructor
  · simp only [add_supplier_transaction, hu]
  · simp only [add_supplier_invoice, hu]

/-- C10 witness: both operations against the empty store with supplier
id 5. -/
theorem c10_missing_supplier_witness :
    add_supplier_transaction dbEmpty 5 none 100 none dt8 =
      ({ dbEmpty with supplierTransactions := dbEmpty.supplierTransactions ++
          [⟨nextIdBy SupplierTransaction.id dbEmpty.supplierTransactions, some 5, some dt8,
            none, some 100, none⟩] },
       nextIdBy SupplierTransaction.id dbEmpty.supplierTransactions)
    ∧ add_supplier_invoice dbEmpty 5 none 100 none none false dt8 =
      ({ dbEmpty with supplierInvoices := dbEmpty.supplierInvoices ++
          [⟨nextIdBy SupplierInvoice.id dbEmpty.supplierInvoices, some 5, none,
            some ((none : Option DateTime).getD dt8), some 100, false, none⟩] },
       nextIdBy SupplierInvoice.id dbEmpty.supplierInvoices) :=
  c10_missing_supplier dbEmpty 5 none 100 none dt8 none none none false rfl
